import Mathlib

/-!
Shallow embedding of the camera configuration and acquisition-state core of
src/microscope/cameras/ximea.py (class XimeaCamera), together with theorems
checking the frozen claims about it.

Conventions used throughout:
* Python integers become Nat (all the quantities involved are non-negative).
* The vendor SDK (xiapi) is an external collaborator; each embedded operation
  takes the outcome of its hardware calls as an explicit oracle argument.
* A raised Python exception becomes an explicit outcome constructor or an
  Option error component of the result.
* Mutation of instance attributes (self._roi, self._acquiring, self._trigger_map)
  becomes explicit state passing: each function returns the new value of the
  attributes it may assign.
-/

namespace Ximea

/-- Error codes from the top of ximea.py. -/
def XI_TIMEOUT : Nat := 10

def XI_INVALID_ARGUMENTS : Nat := 11

def XI_NOT_SUPPORTED : Nat := 12

def XI_NOT_IMPLEMENTED : Nat := 26

def XI_ACQUISITION_STOPED : Nat := 45

def XI_UNKNOWN_PARAM : Nat := 100

/-- microscope.ROI: (left, top, width, height). -/
structure ROI where
  left : Nat
  top : Nat
  width : Nat
  height : Nat
deriving DecidableEq, Repr

/-- Exact-arithmetic model of Python round(x / i) for natural x and positive i:
round half to even of the rational x / i.  (The source computes this with a
float division; for the integer magnitudes involved the float result is the
exactly rounded rational, which is what we model.) -/
def pyRoundDiv (x i : Nat) : Nat :=
  if 2 * (x % i) < i then x / i
  else if i < 2 * (x % i) then x / i + 1
  else if (x / i) % 2 = 0 then x / i else x / i + 1

/-- One axis of the quantization-retry correction in _set_roi: the requested
value v is rounded to the increment grid only when it differs from the
previously applied value prev, and only when it is off grid. -/
def quantAxis (v prev incr : Nat) : Nat :=
  if v ≠ prev then
    (if v % incr ≠ 0 then pyRoundDiv v incr * incr else v)
  else v

/-- Hardware-reported increments for the four ROI axes
(get_height_increment and friends). -/
structure Increments where
  hIncr : Nat
  wIncr : Nat
  xIncr : Nat
  yIncr : Nat
deriving DecidableEq, Repr

/-- The corrected ROI computed by the invalid-arguments retry branch of
_set_roi, relative to the previously applied (mirrored) ROI. -/
def quantRoi (incr : Increments) (prev req : ROI) : ROI :=
  { left := quantAxis req.left prev.left incr.xIncr
    top := quantAxis req.top prev.top incr.yIncr
    width := quantAxis req.width prev.width incr.wIncr
    height := quantAxis req.height prev.height incr.hIncr }

/-- Outcome of one hardware write sequence inside _set_roi: success, a
xiapi.Xi_error carrying a status code, or a non-Xi exception. -/
inductive HwWriteOutcome where
  | success
  | xi (status : Nat)
  | exc
deriving DecidableEq, Repr

/-- Hardware oracle for _set_roi: sensor geometry, per-axis increments, the
outcome of the first write sequence for a given requested ROI, and whether the
retry writes of a given corrected ROI succeed. -/
structure RoiHw where
  sensorW : Nat
  sensorH : Nat
  incr : Increments
  firstSeq : ROI → HwWriteOutcome
  retryOk : ROI → Bool

/-- How a _set_roi call ends, from the point of view of the caller. -/
inductive SetRoiOutcome where
  | ok
  | valueError
  | raised
  | outOfFuel
deriving DecidableEq, Repr

/-- Shallow embedding of XimeaCamera._set_roi.  Arguments: fuel (bounding the
self-recursion of the restore path), the current mirrored ROI self._roi, and
the requested ROI.  Returns the outcome and the new mirrored ROI.

Control flow translated from the source:
* out-of-bounds request raises ValueError before any hardware call;
* first write sequence succeeds: the mirror is assigned the requested ROI;
* first sequence raises Xi_error with status XI_INVALID_ARGUMENTS: the retry
  writes the per-axis corrected values; if those writes succeed the mirror is
  assigned the corrected ROI, and if one of them raises the exception
  propagates (it is raised inside the except handler) with the mirror
  untouched;
* first sequence raises Xi_error with any other status: the except clause for
  Xi_error matches, its status test fails, the exception is discarded, and
  control falls through to the mirror assignment with the requested ROI;
* first sequence raises a non-Xi exception: the except Exception handler calls
  self._set_roi(self._roi) to restore the previous ROI and re-raises. -/
def setRoi (hw : RoiHw) : Nat → ROI → ROI → SetRoiOutcome × ROI
  | 0, mirror, _ => (SetRoiOutcome.outOfFuel, mirror)
  | fuel + 1, mirror, req =>
    if req.width + req.left > hw.sensorW ∨ req.height + req.top > hw.sensorH then
      (SetRoiOutcome.valueError, mirror)
    else
      match hw.firstSeq req with
      | HwWriteOutcome.success => (SetRoiOutcome.ok, req)
      | HwWriteOutcome.xi status =>
        if status = XI_INVALID_ARGUMENTS then
          let corrected := quantRoi hw.incr mirror req
          if hw.retryOk corrected then (SetRoiOutcome.ok, corrected)
          else (SetRoiOutcome.raised, mirror)
        else
          (SetRoiOutcome.ok, req)
      | HwWriteOutcome.exc =>
        (SetRoiOutcome.raised, (setRoi hw fuel mirror mirror).2)

/-! ## Trigger mapping -/

/-- Modelled from the spec: the abstract trigger-type enumeration lives in the
top-level microscope package, which is not under src/.  The spec names the
members SOFTWARE and RISING_EDGE. -/
inductive TriggerType where
  | SOFTWARE
  | RISING_EDGE
deriving DecidableEq, Repr

/-- Modelled from the spec: the abstract trigger-mode enumeration lives in the
top-level microscope package, which is not under src/.  The spec names the
members ONCE and STROBE. -/
inductive TriggerMode where
  | ONCE
  | STROBE
deriving DecidableEq, Repr

/-- TRIGGER_TABLE from ximea.py, as a finite partial map.  The source dict
literal lists the key (RISING_EDGE, ONCE) twice with the identical value, so
the duplicate entry collapses without changing the mapping. -/
def TRIGGER_TABLE : TriggerType × TriggerMode → Option (String × String)
  | (TriggerType.SOFTWARE, TriggerMode.STROBE) =>
    some ("XI_TRG_OFF", "XI_TRG_SEL_FRAME_START")
  | (TriggerType.SOFTWARE, TriggerMode.ONCE) =>
    some ("XI_TRG_SOFTWARE", "XI_TRG_SEL_FRAME_START")
  | (TriggerType.RISING_EDGE, TriggerMode.ONCE) =>
    some ("XI_TRG_EDGE_RISING", "XI_TRG_SEL_FRAME_START")
  | (TriggerType.RISING_EDGE, TriggerMode.STROBE) => none

/-- The native mapping cached at construction:
TRIGGER_TABLE[(TriggerType.SOFTWARE, TriggerMode.ONCE)]. -/
def initialTriggerMap : String × String :=
  ("XI_TRG_SOFTWARE", "XI_TRG_SEL_FRAME_START")

/-- microscope.UnsupportedFeatureError raised by set_trigger, carrying the
requested type and mode (the source formats them into the message). -/
inductive TrigError where
  | unsupportedFeature (ttype : TriggerType) (tmode : TriggerMode)
deriving DecidableEq, Repr

/-- Shallow embedding of XimeaCamera.set_trigger.  State: the cached native
pair self._trigger_map.  Result: the error (if the lookup failed), the new
cached pair, and the list of native pairs pushed to the hardware. -/
def set_trigger (ttype : TriggerType) (tmode : TriggerMode)
    (cur : String × String) :
    Option TrigError × (String × String) × List (String × String) :=
  match TRIGGER_TABLE (ttype, tmode) with
  | none => (some (TrigError.unsupportedFeature ttype tmode), cur, [])
  | some newMap =>
    if newMap ≠ cur then (none, newMap, [newMap]) else (none, cur, [])

/-- XimeaCamera.trigger_type property: returns self._trigger_map[0], which is
a native trigger-source code string. -/
def trigger_type (triggerMap : String × String) : String := triggerMap.1

/-- XimeaCamera.trigger_mode property: returns self._trigger_map[1], which is
a native trigger-selector code string. -/
def trigger_mode (triggerMap : String × String) : String := triggerMap.2

/-- The cached trigger maps reachable in a camera: the constructor stores
TRIGGER_TABLE[(SOFTWARE, ONCE)], and the only assignment afterwards is the one
in set_trigger. -/
inductive ReachableTriggerMap : String × String → Prop where
  | init : ReachableTriggerMap initialTriggerMap
  | step (ttype : TriggerType) (tmode : TriggerMode) (cur : String × String) :
      ReachableTriggerMap cur →
      ReachableTriggerMap (set_trigger ttype tmode cur).2.1

/-- Shallow embedding of XimeaCamera._do_trigger: sends the software pulse
(set_trigger_software(1)) exactly when the cached map equals
TRIGGER_TABLE[(SOFTWARE, ONCE)]; otherwise it does nothing. -/
def do_trigger (cur : String × String) : List String :=
  if some cur = TRIGGER_TABLE (TriggerType.SOFTWARE, TriggerMode.ONCE) then
    ["set_trigger_software 1"]
  else []

/-- The unsupported-operation failure of a trigger() call. -/
inductive TriggerCallError where
  | unsupportedOperation
deriving DecidableEq, Repr

/-- Modelled from the spec: trigger() itself is implemented by the abstract
Camera base class (microscope.abc), which is not under src/.  Per the spec it
is only valid when the active TriggerSpec is software/once; any other active
trigger spec causes trigger() to fail with an unsupported-operation error
rather than sending a software pulse.  On the valid spec it delegates to
_do_trigger (which is in src/ and embedded above). -/
def trigger (cur : String × String) : Option TriggerCallError × List String :=
  if some cur = TRIGGER_TABLE (TriggerType.SOFTWARE, TriggerMode.ONCE) then
    (none, do_trigger cur)
  else (some TriggerCallError.unsupportedOperation, [])

/-! ## Acquisition state machine -/

/-- Observable events of the acquisition functions: writes of the mirrored
self._acquiring flag and the hardware start/stop calls, in program order. -/
inductive AcqEvent where
  | flagWrite (acquiring : Bool)
  | hwStopAcquisition
  | hwStartAcquisition
deriving DecidableEq, Repr

/-- Result of abort / _do_enable: whether an exception propagated, the final
value of self._acquiring, and the event trace. -/
structure AcqResult where
  error : Bool
  acquiring : Bool
  events : List AcqEvent
deriving DecidableEq, Repr

/-- Shallow embedding of XimeaCamera.abort.  stopOk tells whether the hardware
stop_acquisition call succeeds.  Translated from the source: when acquiring,
the flag is cleared first, then stop_acquisition runs; if it raises, the flag
is set back to True and the exception propagates.  When not acquiring, nothing
happens. -/
def abort (stopOk : Bool) (acquiring : Bool) : AcqResult :=
  if acquiring then
    if stopOk then
      { error := false
        acquiring := false
        events := [AcqEvent.flagWrite false, AcqEvent.hwStopAcquisition] }
    else
      { error := true
        acquiring := true
        events := [AcqEvent.flagWrite false, AcqEvent.hwStopAcquisition,
                   AcqEvent.flagWrite true] }
  else
    { error := false, acquiring := acquiring, events := [] }

/-- XimeaCamera._do_disable simply delegates to abort. -/
def do_disable (stopOk : Bool) (acquiring : Bool) : AcqResult :=
  abort stopOk acquiring

/-- Shallow embedding of XimeaCamera._do_enable.  stopOk is the outcome of the
stop call of the internal abort (used only when already acquiring); startOk the
outcome of start_acquisition.  returnedTrue records whether the function
reached its return True statement. -/
def do_enable (stopOk startOk : Bool) (acquiring : Bool) :
    AcqResult × Bool :=
  let ab :=
    if acquiring then abort stopOk acquiring
    else { error := false, acquiring := acquiring, events := [] }
  if ab.error then
    ({ error := true, acquiring := ab.acquiring, events := ab.events }, false)
  else if startOk then
    ({ error := false
       acquiring := true
       events := ab.events ++ [AcqEvent.hwStartAcquisition, AcqEvent.flagWrite true] },
     true)
  else
    ({ error := true
       acquiring := ab.acquiring
       events := ab.events ++ [AcqEvent.hwStartAcquisition] },
     false)

/-! ## Frame fetch -/

/-- Outcome of the hardware get_image call: an image, or a Xi_error whose
status attribute may be absent (the source reads it with getattr, so the
status is an Option). -/
inductive FetchHw where
  | image (frame : Nat)
  | xiErr (status : Option Nat)
deriving DecidableEq, Repr

/-- What a _fetch_data call yields to its caller. -/
inductive FetchResult where
  | frame (data : Nat)
  | noData
  | raised (status : Option Nat)
deriving DecidableEq, Repr

/-- Shallow embedding of XimeaCamera._fetch_data.  The source reads
self._acquiring twice: once on entry (early None return) and once in the
exception handler; a concurrent abort may change the flag between the two
reads, so the two reads are separate arguments.  The function itself never
writes the flag, and the second component of the result is its final value. -/
def fetch_data (acquiringAtEntry : Bool) (hw : FetchHw)
    (acquiringAtCheck : Bool) : FetchResult × Bool :=
  if acquiringAtEntry = false then (FetchResult.noData, acquiringAtCheck)
  else
    match hw with
    | FetchHw.image d => (FetchResult.frame d, acquiringAtCheck)
    | FetchHw.xiErr status =>
      if status = some XI_TIMEOUT then (FetchResult.noData, acquiringAtCheck)
      else if status = some XI_ACQUISITION_STOPED ∧ acquiringAtCheck = false then
        (FetchResult.noData, acquiringAtCheck)
      else (FetchResult.raised status, acquiringAtCheck)

/-! ## Exposure time -/

/-- Observable events of set_exposure_time: the hardware set_exposure_direct
call (with its microsecond argument) and the debug-level log message written
by the exception handler. -/
inductive ExpEvent where
  | hwSetExposureDirect (us : Int)
  | debugLog
deriving DecidableEq, Repr

/-- Shallow embedding of XimeaCamera.set_exposure_time.  hwOk tells whether
set_exposure_direct succeeds; us is the converted microsecond value.  The
source wraps the hardware call in try/except Exception and only logs the
exception, so the first component (the error surfaced to the caller) is
always none. -/
def set_exposure_time (hwOk : Bool) (us : Int) : Option Unit × List ExpEvent :=
  if hwOk then (none, [ExpEvent.hwSetExposureDirect us])
  else (none, [ExpEvent.hwSetExposureDirect us, ExpEvent.debugLog])

/-! ## Scoped enable/disable context managers -/

/-- Camera state seen by the context managers: the enabled flag plus an
abstract configuration component standing for everything else the body of the
with-block may touch. -/
structure CamState where
  enabled : Bool
  config : Nat
deriving DecidableEq, Repr

/-- Modelled from the spec: disable() and enable() are implemented by the
abstract Device base class outside src/; per the spec they drive the
enabled/disabled state, so their effect on the state seen by the context
managers is writing the enabled flag. -/
def setEnabled (b : Bool) (s : CamState) : CamState :=
  { s with enabled := b }

/-- Shallow embedding of the _disabled_camera context manager, applied to a
body (the contents of the with-block).  The body returns an optional raised
exception and the state it leaves behind; a try/finally around the yield
guarantees the re-enable runs on both exits. -/
def disabledCamera (body : CamState → Option Unit × CamState) (s : CamState) :
    Option Unit × CamState :=
  if s.enabled then
    ((body (setEnabled false s)).1, setEnabled true (body (setEnabled false s)).2)
  else
    body s

/-- Shallow embedding of the _enabled_camera context manager, the symmetric
helper. -/
def enabledCamera (body : CamState → Option Unit × CamState) (s : CamState) :
    Option Unit × CamState :=
  if s.enabled then
    body s
  else
    ((body (setEnabled true s)).1, setEnabled false (body (setEnabled true s)).2)

/-! ## Helper lemmas on the quantization arithmetic -/

/-- Distance between two naturals, written with truncated subtraction so that
omega can reason about it. -/
def natDist (a b : Nat) : Nat := (a - b) + (b - a)

/-- The value produced by pyRoundDiv is a nearest multiple of i: no multiple
k * i is strictly closer to v. -/
theorem pyRoundDiv_nearest (v i k : Nat) (hi : 0 < i) :
    natDist (pyRoundDiv v i * i) v ≤ natDist (k * i) v := by
  have hv : v / i * i + v % i = v := by
    rw [Nat.mul_comm (v / i) i]
    exact Nat.div_add_mod v i
  have hr : v % i < i := Nat.mod_lt v hi
  have hmul : (v / i + 1) * i = v / i * i + i := Nat.succ_mul (v / i) i
  have hk2 : k * i ≤ v / i * i ∨ v / i * i + i ≤ k * i := by
    rcases Nat.lt_or_ge k (v / i + 1) with h | h
    · exact Or.inl (mul_le_mul_right' (Nat.lt_succ_iff.mp h) i)
    · refine Or.inr ?_
      calc v / i * i + i = (v / i + 1) * i := hmul.symm
        _ ≤ k * i := mul_le_mul_right' h i
  unfold pyRoundDiv
  by_cases h1 : 2 * (v % i) < i
  · rw [if_pos h1]
    simp only [natDist]
    generalize v / i * i = A at hv hk2 ⊢
    generalize k * i = B at hk2 ⊢
    omega
  · rw [if_neg h1]
    by_cases h2 : i < 2 * (v % i)
    · rw [if_pos h2, hmul]
      simp only [natDist]
      generalize v / i * i = A at hv hk2 ⊢
      generalize k * i = B at hk2 ⊢
      omega
    · rw [if_neg h2]
      by_cases h3 : v / i % 2 = 0
      · rw [if_pos h3]
        simp only [natDist]
        generalize v / i * i = A at hv hk2 ⊢
        generalize k * i = B at hk2 ⊢
        omega
      · rw [if_neg h3, hmul]
        simp only [natDist]
        generalize v / i * i = A at hv hk2 ⊢
        generalize k * i = B at hk2 ⊢
        omega

/-- What the quantization retry guarantees on a single axis: requested value v,
previously applied value prev, increment incr, produced value out.  An axis
equal to the previous one, or already on grid, is passed through unchanged; an
output differing from the request can only arise on a changed off-grid axis;
and a changed off-grid axis is corrected to a nearest multiple of incr. -/
def axisCorrected (v prev incr out : Nat) : Prop :=
  (v = prev → out = v) ∧
  (v % incr = 0 → out = v) ∧
  (out ≠ v → v % incr ≠ 0 ∧ v ≠ prev) ∧
  (v ≠ prev → v % incr ≠ 0 →
    out % incr = 0 ∧ ∀ k : Nat, natDist out v ≤ natDist (k * incr) v)

/-- quantAxis satisfies the per-axis correction contract. -/
theorem quantAxis_corrected (v prev incr : Nat) (hi : 0 < incr) :
    axisCorrected v prev incr (quantAxis v prev incr) := by
  unfold axisCorrected quantAxis
  refine ⟨?_, ?_, ?_, ?_⟩
  · intro hvp
    simp [hvp]
  · intro hm
    by_cases hvp : v = prev
    · simp [hvp]
    · simp [hvp, hm]
  · intro hne
    by_cases hvp : v = prev
    · simp [hvp] at hne
    · by_cases hm : v % incr = 0
      · simp [hvp, hm] at hne
      · exact ⟨hm, hvp⟩
  · intro hvp hm
    rw [if_pos hvp, if_pos hm]
    exact ⟨Nat.mul_mod_left _ _, fun k => pyRoundDiv_nearest v incr k hi⟩

/-! ## Concrete hardware oracles used in the evaluations -/

/-- Hardware oracle for the C1 evaluation: a 2048 by 2048 sensor whose write
sequence raises Xi_error with the unknown-parameter status (100), a status the
source neither retries nor re-raises. -/
def c1hw : RoiHw :=
  { sensorW := 2048
    sensorH := 2048
    incr := { hIncr := 2, wIncr := 2, xIncr := 2, yIncr := 2 }
    firstSeq := fun _ => HwWriteOutcome.xi XI_UNKNOWN_PARAM
    retryOk := fun _ => true }

/-- Hardware oracle for the C3 theorems: a 2048 by 2048 sensor with height and
width increments of 4, whose first write sequence raises the
invalid-arguments status and whose retry writes succeed. -/
def c3hw : RoiHw :=
  { sensorW := 2048
    sensorH := 2048
    incr := { hIncr := 4, wIncr := 4, xIncr := 2, yIncr := 2 }
    firstSeq := fun _ => HwWriteOutcome.xi XI_INVALID_ARGUMENTS
    retryOk := fun _ => true }

/-! ## Claim theorems -/

/-- C1: the claim states that any _set_roi failure other than a recovered
invalid-arguments rejection is re-raised and leaves the mirrored ROI at its
previous value.  This evaluation shows the code does the opposite on a
Xi_error with a status other than invalid-arguments (here the
unknown-parameter status 100 raised during the first write sequence): the
except clause for Xi_error matches, its status test fails, the exception is
discarded, _set_roi returns True, and the mirror is overwritten with the
requested ROI even though the hardware write failed. -/
theorem c1_other_xi_error_swallowed :
    (setRoi c1hw 1 ⟨0, 0, 100, 100⟩ ⟨0, 0, 200, 200⟩).1 = SetRoiOutcome.ok ∧
    (setRoi c1hw 1 ⟨0, 0, 100, 100⟩ ⟨0, 0, 200, 200⟩).2 = ⟨0, 0, 200, 200⟩ ∧
    (⟨0, 0, 200, 200⟩ : ROI) ≠ (⟨0, 0, 100, 100⟩ : ROI) := by
  decide

/-- C3 (counterexample): the claim asserts that after the quantization retry
every component of the resulting ROI is an integer multiple of the
corresponding increment.  With a previously applied width of 1001, width
increment 4 and a request whose width equals the previous one (so the retry
skips that axis), the returned ROI keeps the off-grid width 1001. -/
theorem c3_unchanged_axis_left_off_grid :
    (setRoi c3hw 1 ⟨0, 0, 1001, 100⟩ ⟨0, 0, 1001, 102⟩).1 = SetRoiOutcome.ok ∧
    ¬ ((setRoi c3hw 1 ⟨0, 0, 1001, 100⟩ ⟨0, 0, 1001, 102⟩).2.width %
        c3hw.incr.wIncr = 0) := by
  decide

/-- C3 (amended): when the hardware rejects the first write sequence with an
invalid-arguments error and the retry writes succeed, _set_roi returns the
per-axis corrected ROI, where each axis whose requested value differs from the
previously applied ROI and is off grid is rounded to a nearest multiple of
that axis increment, axes equal to the previous ROI or already on grid are
passed through unchanged (even if off grid), and the result differs from the
request only on changed off-grid axes. -/
theorem c3_quantization_retry_amended (hw : RoiHw) (fuel : Nat) (prev req : ROI)
    (hin : ¬ (req.width + req.left > hw.sensorW ∨ req.height + req.top > hw.sensorH))
    (hfirst : hw.firstSeq req = HwWriteOutcome.xi XI_INVALID_ARGUMENTS)
    (hretry : hw.retryOk (quantRoi hw.incr prev req) = true)
    (h1 : 0 < hw.incr.hIncr) (h2 : 0 < hw.incr.wIncr)
    (h3 : 0 < hw.incr.xIncr) (h4 : 0 < hw.incr.yIncr) :
    setRoi hw (fuel + 1) prev req = (SetRoiOutcome.ok, quantRoi hw.incr prev req) ∧
    axisCorrected req.height prev.height hw.incr.hIncr (quantRoi hw.incr prev req).height ∧
    axisCorrected req.width prev.width hw.incr.wIncr (quantRoi hw.incr prev req).width ∧
    axisCorrected req.left prev.left hw.incr.xIncr (quantRoi hw.incr prev req).left ∧
    axisCorrected req.top prev.top hw.incr.yIncr (quantRoi hw.incr prev req).top := by
  refine ⟨?_, quantAxis_corrected _ _ _ h1, quantAxis_corrected _ _ _ h2,
    quantAxis_corrected _ _ _ h3, quantAxis_corrected _ _ _ h4⟩
  simp only [setRoi]
  rw [if_neg hin, hfirst]
  simp [XI_INVALID_ARGUMENTS, hretry]

/-- Witness for the amended C3 theorem at a concrete input: sensor 2048 by
2048, increments 4 on width and height, previous ROI (0, 0, 1001, 100),
request (0, 0, 1001, 102). -/
theorem c3_quantization_retry_amended_witness :
    setRoi c3hw 1 ⟨0, 0, 1001, 100⟩ ⟨0, 0, 1001, 102⟩ =
      (SetRoiOutcome.ok, quantRoi c3hw.incr ⟨0, 0, 1001, 100⟩ ⟨0, 0, 1001, 102⟩) ∧
    axisCorrected 102 100 c3hw.incr.hIncr
      (quantRoi c3hw.incr ⟨0, 0, 1001, 100⟩ ⟨0, 0, 1001, 102⟩).height ∧
    axisCorrected 1001 1001 c3hw.incr.wIncr
      (quantRoi c3hw.incr ⟨0, 0, 1001, 100⟩ ⟨0, 0, 1001, 102⟩).width ∧
    axisCorrected 0 0 c3hw.incr.xIncr
      (quantRoi c3hw.incr ⟨0, 0, 1001, 100⟩ ⟨0, 0, 1001, 102⟩).left ∧
    axisCorrected 0 0 c3hw.incr.yIncr
      (quantRoi c3hw.incr ⟨0, 0, 1001, 100⟩ ⟨0, 0, 1001, 102⟩).top :=
  c3_quantization_retry_amended c3hw 0 ⟨0, 0, 1001, 100⟩ ⟨0, 0, 1001, 102⟩
    (by decide) rfl rfl (by decide) (by decide) (by decide) (by decide)

/-- C4: abort (and hence _do_disable, which delegates to it) is a no-op when
not acquiring; otherwise it clears the mirrored acquiring flag before issuing
the hardware stop call, and when the stop call fails the flag is rolled back
to acquiring and the error propagates.  The first two conjuncts say an error
escapes, and the flag ends up True, exactly when the camera was acquiring and
the stop call failed. -/
theorem c4_abort_noop_and_rollback (stopOk acquiring : Bool) :
    ((abort stopOk acquiring).error = (acquiring && !stopOk)) ∧
    ((abort stopOk acquiring).acquiring = (acquiring && !stopOk)) ∧
    (acquiring = false →
      abort stopOk acquiring = { error := false, acquiring := false, events := [] }) ∧
    (acquiring = true → ∃ rest, (abort stopOk acquiring).events =
      AcqEvent.flagWrite false :: AcqEvent.hwStopAcquisition :: rest) ∧
    do_disable stopOk acquiring = abort stopOk acquiring := by
  refine ⟨?_, ?_, ?_, ?_, rfl⟩
  · cases acquiring <;> cases stopOk <;> decide
  · cases acquiring <;> cases stopOk <;> decide
  · intro h
    subst h
    cases stopOk <;> decide
  · intro h
    subst h
    cases stopOk
    · exact ⟨[AcqEvent.flagWrite true], by decide⟩
    · exact ⟨[], by decide⟩

/-- Witness for the C4 theorem: the rollback case (stop call fails while
acquiring), the no-op case, and the flag-before-stop ordering. -/
theorem c4_abort_noop_and_rollback_witness :
    (abort false true).error = true ∧
    (abort false true).acquiring = true ∧
    abort true false = { error := false, acquiring := false, events := [] } ∧
    (∃ rest, (abort true true).events =
      AcqEvent.flagWrite false :: AcqEvent.hwStopAcquisition :: rest) := by
  refine ⟨?_, ?_, ?_, ?_⟩
  · exact (c4_abort_noop_and_rollback false true).1
  · exact (c4_abort_noop_and_rollback false true).2.1
  · exact (c4_abort_noop_and_rollback true false).2.2.1 rfl
  · exact (c4_abort_noop_and_rollback true true).2.2.2.1 rfl

/-- C5 (counterexample): the claim asserts that when the hardware rejects the
start call the acquisition state remains unchanged from before the enable
call.  Starting from an acquiring camera whose internal abort succeeds and
whose start call fails, _do_enable propagates the error but leaves the flag
False, not the True it held before the call. -/
theorem c5_enable_start_failure_state_changed :
    (do_enable true false true).1.error = true ∧
    ¬ ((do_enable true false true).1.acquiring = true) := by
  decide

/-- C5 (amended): _do_enable first performs an internal abort when already
acquiring, then issues exactly one hardware start-acquisition call; on success
it marks the state acquiring and returns True; if the hardware rejects the
start call the error is surfaced and the acquiring flag is left with the value
it had immediately before the start call, which is False (after a successful
internal abort, or unchanged when the camera was idle) rather than the
pre-call value.  Stated with a succeeding internal stop call. -/
theorem c5_enable_amended (startOk acquiring : Bool) :
    ((do_enable true startOk acquiring).1.events.count AcqEvent.hwStartAcquisition = 1) ∧
    (acquiring = true → ∃ rest, (do_enable true startOk acquiring).1.events =
      AcqEvent.flagWrite false :: AcqEvent.hwStopAcquisition :: rest) ∧
    (startOk = true → (do_enable true startOk acquiring).1.error = false ∧
      (do_enable true startOk acquiring).1.acquiring = true ∧
      (do_enable true startOk acquiring).2 = true) ∧
    (startOk = false → (do_enable true startOk acquiring).1.error = true ∧
      (do_enable true startOk acquiring).1.acquiring = false ∧
      (do_enable true startOk acquiring).2 = false) := by
  refine ⟨?_, ?_, ?_, ?_⟩
  · cases acquiring <;> cases startOk <;> decide
  · intro h
    subst h
    cases startOk
    · exact ⟨[AcqEvent.hwStartAcquisition], by decide⟩
    · exact ⟨[AcqEvent.hwStartAcquisition, AcqEvent.flagWrite true], by decide⟩
  · intro h
    subst h
    cases acquiring <;> decide
  · intro h
    subst h
    cases acquiring <;> decide

/-- Witness for the amended C5 theorem: enabling an already-acquiring camera
with a succeeding start call, and with a failing start call. -/
theorem c5_enable_amended_witness :
    ((do_enable true true true).1.events.count AcqEvent.hwStartAcquisition = 1) ∧
    (∃ rest, (do_enable true true true).1.events =
      AcqEvent.flagWrite false :: AcqEvent.hwStopAcquisition :: rest) ∧
    ((do_enable true true true).1.error = false ∧
      (do_enable true true true).1.acquiring = true ∧
      (do_enable true true true).2 = true) ∧
    ((do_enable true false true).1.error = true ∧
      (do_enable true false true).1.acquiring = false ∧
      (do_enable true false true).2 = false) := by
  have ha := c5_enable_amended true true
  have hb := c5_enable_amended false true
  exact ⟨ha.1, ha.2.1 rfl, ha.2.2.1 rfl, hb.2.2.2 rfl⟩

/-- C2: trigger() succeeds exactly when the cached native map is the
software/once mapping, in which case _do_trigger sends the software pulse;
for any other cached map it fails with the unsupported-operation error and no
pulse is sent.  (spec-modelled: the trigger gate lives in the abstract Camera
base class outside src/ and is embedded from the spec wording; _do_trigger is
embedded from src/.) -/
theorem c2_trigger_gate (cur : String × String) :
    (cur = initialTriggerMap → trigger cur = (none, ["set_trigger_software 1"])) ∧
    (cur ≠ initialTriggerMap →
      trigger cur = (some TriggerCallError.unsupportedOperation, [])) := by
  constructor
  · intro h
    subst h
    decide
  · intro h
    have hne : ¬ (some cur = TRIGGER_TABLE (TriggerType.SOFTWARE, TriggerMode.ONCE)) := by
      intro hc
      exact h (Option.some.inj hc)
    unfold trigger
    rw [if_neg hne]

/-- Witness for the C2 theorem: the software/once map succeeds with a pulse;
the off/strobe native map fails with no pulse. -/
theorem c2_trigger_gate_witness :
    trigger initialTriggerMap = (none, ["set_trigger_software 1"]) ∧
    trigger ("XI_TRG_OFF", "XI_TRG_SEL_FRAME_START") =
      (some TriggerCallError.unsupportedOperation, []) :=
  ⟨(c2_trigger_gate initialTriggerMap).1 rfl,
   (c2_trigger_gate ("XI_TRG_OFF", "XI_TRG_SEL_FRAME_START")).2 (by decide)⟩

/-- C7: a hardware timeout yields no data (not an exception); a hardware
acquisition-stopped error while the mirrored flag is already False also yields
no data; any other hardware error propagates unchanged; and _fetch_data never
changes the acquiring flag. -/
theorem c7_fetch_tolerance (check entry : Bool) (hw : FetchHw) :
    (fetch_data true (FetchHw.xiErr (some XI_TIMEOUT)) check =
      (FetchResult.noData, check)) ∧
    (fetch_data true (FetchHw.xiErr (some XI_ACQUISITION_STOPED)) false =
      (FetchResult.noData, false)) ∧
    (∀ s : Option Nat, s ≠ some XI_TIMEOUT →
      ¬ (s = some XI_ACQUISITION_STOPED ∧ check = false) →
      fetch_data true (FetchHw.xiErr s) check = (FetchResult.raised s, check)) ∧
    ((fetch_data entry hw check).2 = check) := by
  refine ⟨?_, ?_, ?_, ?_⟩
  · cases check <;> decide
  · decide
  · intro s hs1 hs2
    unfold fetch_data
    rw [if_neg (by decide : ¬ (true = false))]
    simp only []
    rw [if_neg hs1, if_neg hs2]
  · unfold fetch_data
    cases entry
    · rfl
    · cases hw
      · rfl
      · repeat' split
        all_goals rfl

/-- Witness for the C7 theorem: timeout, a propagated unknown-parameter
error, and the flag left unchanged by an idle fetch. -/
theorem c7_fetch_tolerance_witness :
    (fetch_data true (FetchHw.xiErr (some XI_TIMEOUT)) true =
      (FetchResult.noData, true)) ∧
    (fetch_data true (FetchHw.xiErr (some XI_UNKNOWN_PARAM)) true =
      (FetchResult.raised (some XI_UNKNOWN_PARAM), true)) ∧
    ((fetch_data false (FetchHw.image 5) true).2 = true) := by
  have h := c7_fetch_tolerance true false (FetchHw.image 5)
  exact ⟨h.1, h.2.2.1 (some XI_UNKNOWN_PARAM) (by decide) (by decide), h.2.2.2⟩

/-- C8: for every (type, mode) pair absent from TRIGGER_TABLE, set_trigger
fails with the unsupported-feature error carrying the requested type and mode,
leaves the cached native map unchanged, and pushes nothing to the hardware. -/
theorem c8_set_trigger_unmapped (ttype : TriggerType) (tmode : TriggerMode)
    (cur : String × String) (habs : TRIGGER_TABLE (ttype, tmode) = none) :
    set_trigger ttype tmode cur =
      (some (TrigError.unsupportedFeature ttype tmode), cur, []) := by
  unfold set_trigger
  rw [habs]

/-- Witness for the C8 theorem: (RISING_EDGE, STROBE) is absent from the
table. -/
theorem c8_set_trigger_unmapped_witness :
    set_trigger TriggerType.RISING_EDGE TriggerMode.STROBE initialTriggerMap =
      (some (TrigError.unsupportedFeature TriggerType.RISING_EDGE TriggerMode.STROBE),
       initialTriggerMap, []) :=
  c8_set_trigger_unmapped TriggerType.RISING_EDGE TriggerMode.STROBE
    initialTriggerMap rfl

/-- C9 (counterexample): the claim asserts a hardware error during
set_exposure_time is propagated.  With a failing hardware call the function
surfaces no error to the caller: the exception is caught and only a debug log
entry is written. -/
theorem c9_exposure_error_swallowed :
    (set_exposure_time false 1000000).1 = none ∧
    ExpEvent.debugLog ∈ (set_exposure_time false 1000000).2 := by
  decide

/-- C9 (amended): set_exposure_time always attempts the hardware
set_exposure_direct call, but catches any exception it raises and only logs it
at debug level; the call always returns normally, so a hardware failure during
set_exposure_time is silently dropped rather than surfaced.  (set_roi and
set_trigger, in contrast, surface their failures as stated elsewhere.) -/
theorem c9_exposure_amended (hwOk : Bool) (us : Int) :
    (set_exposure_time hwOk us).1 = none ∧
    (set_exposure_time hwOk us).2.head? = some (ExpEvent.hwSetExposureDirect us) ∧
    (hwOk = false → ExpEvent.debugLog ∈ (set_exposure_time hwOk us).2) := by
  cases hwOk <;> simp [set_exposure_time]

/-- Witness for the amended C9 theorem at a failing hardware call. -/
theorem c9_exposure_amended_witness :
    (set_exposure_time false 2000000).1 = none ∧
    (set_exposure_time false 2000000).2.head? =
      some (ExpEvent.hwSetExposureDirect 2000000) ∧
    ExpEvent.debugLog ∈ (set_exposure_time false 2000000).2 := by
  have h := c9_exposure_amended false 2000000
  exact ⟨h.1, h.2.1, h.2.2 rfl⟩

/-- C6: each scoped helper runs its body on a state with the target enabled
flag and, for a body that does not itself flip the enabled flag, restores the
prior enabled/disabled state on both exit paths: the result of the helper is
exactly the outcome of the body on the adjusted state (so an exception from
the body propagates) with the enabled flag set back to its prior value. -/
theorem c6_scoped_restore (body : CamState → Option Unit × CamState)
    (hbody : ∀ t, ((body t).2).enabled = t.enabled) (s : CamState) :
    disabledCamera body s =
      ((body (setEnabled false s)).1,
       setEnabled s.enabled (body (setEnabled false s)).2) ∧
    enabledCamera body s =
      ((body (setEnabled true s)).1,
       setEnabled s.enabled (body (setEnabled true s)).2) := by
  have key : ∀ (b : Bool) (X : Option Unit × CamState), X.2.enabled = b →
      (X.1, setEnabled b X.2) = X := by
    intro b X hX
    obtain ⟨e, t⟩ := X
    obtain ⟨te, tc⟩ := t
    have hb : te = b := hX
    subst hb
    rfl
  constructor
  · unfold disabledCamera
    by_cases h : s.enabled = true
    · rw [if_pos h, h]
    · have h0 : s.enabled = false := by
        cases hse : s.enabled
        · rfl
        · exact absurd hse h
      have hs : setEnabled false s = s := by
        obtain ⟨se, sc⟩ := s
        have hb : se = false := h0
        subst hb
        rfl
      rw [if_neg h, h0, hs]
      exact (key false (body s) ((hbody s).trans h0)).symm
  · unfold enabledCamera
    by_cases h : s.enabled = true
    · have hs : setEnabled true s = s := by
        obtain ⟨se, sc⟩ := s
        have hb : se = true := h
        subst hb
        rfl
      rw [if_pos h, h, hs]
      exact (key true (body s) ((hbody s).trans h)).symm
    · have h0 : s.enabled = false := by
        cases hse : s.enabled
        · rfl
        · exact absurd hse h
      rw [if_neg h, h0]

/-- Witness for the C6 theorem: a body that raises and mutates the
configuration, run from an enabled camera; the helpers still restore the
enabled flag. -/
theorem c6_scoped_restore_witness :
    disabledCamera (fun t => (some (), ⟨t.enabled, t.config + 7⟩)) ⟨true, 0⟩ =
      (some (), ⟨true, 7⟩) ∧
    enabledCamera (fun t => (some (), ⟨t.enabled, t.config + 7⟩)) ⟨true, 0⟩ =
      (some (), ⟨true, 7⟩) := by
  have h := c6_scoped_restore (fun t => (some (), ⟨t.enabled, t.config + 7⟩))
    (fun t => rfl) ⟨true, 0⟩
  exact ⟨h.1.trans (by decide), h.2.trans (by decide)⟩

/-- Every map set_trigger can leave in the cache is either the previous one or
one of the three native pairs of TRIGGER_TABLE. -/
theorem setTrigger_map_cases (ttype : TriggerType) (tmode : TriggerMode)
    (cur : String × String) :
    (set_trigger ttype tmode cur).2.1 = cur ∨
    (set_trigger ttype tmode cur).2.1 = ("XI_TRG_OFF", "XI_TRG_SEL_FRAME_START") ∨
    (set_trigger ttype tmode cur).2.1 = ("XI_TRG_SOFTWARE", "XI_TRG_SEL_FRAME_START") ∨
    (set_trigger ttype tmode cur).2.1 = ("XI_TRG_EDGE_RISING", "XI_TRG_SEL_FRAME_START") := by
  cases ttype <;> cases tmode <;>
    simp only [set_trigger, TRIGGER_TABLE] <;>
    (try split) <;> simp

/-- Every reachable cached trigger map is one of the three native pairs of
TRIGGER_TABLE. -/
theorem reachable_map_in_table (m : String × String) (hm : ReachableTriggerMap m) :
    m = ("XI_TRG_OFF", "XI_TRG_SEL_FRAME_START") ∨
    m = ("XI_TRG_SOFTWARE", "XI_TRG_SEL_FRAME_START") ∨
    m = ("XI_TRG_EDGE_RISING", "XI_TRG_SEL_FRAME_START") := by
  induction hm with
  | init => exact Or.inr (Or.inl rfl)
  | step ttype tmode cur hcur ih =>
    rcases setTrigger_map_cases ttype tmode cur with h | h | h | h
    · rw [h]
      exact ih
    · rw [h]
      exact Or.inl rfl
    · rw [h]
      exact Or.inr (Or.inl rfl)
    · rw [h]
      exact Or.inr (Or.inr rfl)

/-- C10: in every reachable camera state the trigger_type and trigger_mode
properties return the first and second component of the cached native mapping
pair, which are the device trigger-source and trigger-selector code strings
(one of XI_TRG_OFF, XI_TRG_SOFTWARE, XI_TRG_EDGE_RISING paired with
XI_TRG_SEL_FRAME_START), not values of the abstract TriggerType and
TriggerMode enumerations that set_trigger accepts. -/
theorem c10_trigger_props_native_strings (m : String × String)
    (hm : ReachableTriggerMap m) :
    trigger_type m = m.1 ∧ trigger_mode m = m.2 ∧
    (trigger_type m = "XI_TRG_OFF" ∨ trigger_type m = "XI_TRG_SOFTWARE" ∨
      trigger_type m = "XI_TRG_EDGE_RISING") ∧
    trigger_mode m = "XI_TRG_SEL_FRAME_START" := by
  refine ⟨rfl, rfl, ?_, ?_⟩
  · rcases reachable_map_in_table m hm with h | h | h <;> rw [h] <;>
      simp [trigger_type]
  · rcases reachable_map_in_table m hm with h | h | h <;> rw [h] <;> rfl

/-- Witness for the C10 theorem at the initial cached map. -/
theorem c10_trigger_props_native_strings_witness :
    trigger_type initialTriggerMap = initialTriggerMap.1 ∧
    trigger_mode initialTriggerMap = initialTriggerMap.2 ∧
    (trigger_type initialTriggerMap = "XI_TRG_OFF" ∨
      trigger_type initialTriggerMap = "XI_TRG_SOFTWARE" ∨
      trigger_type initialTriggerMap = "XI_TRG_EDGE_RISING") ∧
    trigger_mode initialTriggerMap = "XI_TRG_SEL_FRAME_START" :=
  c10_trigger_props_native_strings initialTriggerMap ReachableTriggerMap.init

end Ximea
